import Mathlib

/-
Shallow embedding of the bookstore_api repository (Rust, actix-web + sqlx).
Embedded source files:
  src/startup.rs            - the route table built in run
  src/routes/authors.rs     - Author, authors_index, create_author, AuthorId, delete_author
The handlers are modelled as pure functions over an explicit store state.
A request body arrives as an optional JSON value (none models a body that is
not parseable as JSON at all); the actix web::Json extractor rejects a body
whose deserialization fails with a 400 client error before the handler runs.
Store failure (database unreachable or statement rejected) is modelled by a
boolean flag on the store: every query observes it and returns an error,
which each call site then handles as the Rust source does.
-/

namespace Bookstore

/-- Minimal JSON value model: strings, arrays and objects, which is all the
payloads of this API use. -/
inductive Json where
  | str : String → Json
  | arr : List Json → Json
  | obj : List (String × Json) → Json

/-- First value bound to a key in a JSON object field list. -/
def jsonLookup : List (String × Json) → String → Option Json
  | [], _ => none
  | (k, v) :: rest, key => if k = key then some v else jsonLookup rest key

/-- The Author payload struct of src/routes/authors.rs lines 7-11:
name and nationality, both required strings. -/
structure Author where
  name : String
  nationality : String
deriving DecidableEq, Repr

/-- Deserialization of Author from JSON, following the serde derive on the
struct: both fields must be present as strings, unknown fields are ignored,
anything else is a deserialization error. -/
def authorFromJson : Json → Option Author
  | Json.obj fields =>
    match jsonLookup fields "name", jsonLookup fields "nationality" with
    | some (Json.str n), some (Json.str nat) => some { name := n, nationality := nat }
    | _, _ => none
  | _ => none

/-- Body-level extraction for the web::Json Author extractor: a body
that is not JSON at all, or whose deserialization fails, yields none. -/
def authorFromBody (b : Option Json) : Option Author :=
  b.bind authorFromJson

/-- The AuthorId payload struct of src/routes/authors.rs lines 42-45:
a single required string field id. -/
def authorIdFromJson : Json → Option String
  | Json.obj fields =>
    match jsonLookup fields "id" with
    | some (Json.str s) => some s
    | _ => none
  | _ => none

/-- Body-level extraction for the web::Json AuthorId extractor. -/
def authorIdFromBody (b : Option Json) : Option String :=
  b.bind authorIdFromJson

/-- Hexadecimal digit value, as accepted by the uuid crate parser. -/
def hexVal (c : Char) : Option Nat :=
  if c.toNat ≥ 48 ∧ c.toNat ≤ 57 then some (c.toNat - 48)
  else if c.toNat ≥ 97 ∧ c.toNat ≤ 102 then some (c.toNat - 87)
  else if c.toNat ≥ 65 ∧ c.toNat ≤ 70 then some (c.toNat - 55)
  else none

/-- Accumulate a big-endian hexadecimal number from a character list,
failing on any non-hex character. -/
def parseHexAux : List Char → Nat → Option Nat
  | [], acc => some acc
  | c :: cs, acc =>
    match hexVal c with
    | some v => parseHexAux cs (acc * 16 + v)
    | none => none

/-- Split a character list on a separator character. -/
def splitCharsOn (sep : Char) : List Char → List Char → List (List Char)
  | [], acc => [acc.reverse]
  | c :: cs, acc =>
    if c = sep then acc.reverse :: splitCharsOn sep cs []
    else splitCharsOn sep cs (c :: acc)

/-- Model of Uuid::parse_str from the external uuid crate as used at
src/routes/authors.rs line 53: accepts the hyphenated 8-4-4-4-12 hex form
and the simple 32-hex form, returning the 128-bit value as a Nat; any other
shape is a parse error. (The crate also accepts urn and braced forms, which
no input of this development exercises.) -/
def parseUuid (s : String) : Option Nat :=
  let groups := splitCharsOn (Char.ofNat 45) s.data []
  if groups.map List.length = [8, 4, 4, 4, 12] ∨ groups.map List.length = [32] then
    parseHexAux groups.flatten 0
  else none

/-- The default UUID produced by unwrap_or_default: the nil UUID, all bits
zero, represented as the Nat 0. -/
def nilUuid : Nat := 0

/-- One row of the authors table: id and created_at are server-generated
(schema default and Utc::now respectively), name and nationality come from
the create payload. Timestamps and ids are modelled as Nat. -/
structure AuthorRow where
  id : Nat
  name : String
  nationality : String
  createdAt : Nat
deriving DecidableEq, Repr

/-- The authors store state seen through the connection pool: the rows of
the authors table, plus a flag stating that the store is unreachable or
failing, observed by every query issued against it. -/
structure Store where
  authors : List AuthorRow
  failing : Bool
deriving DecidableEq, Repr

/-- HTTP response body: empty, plain text, or JSON. -/
inductive Body where
  | empty : Body
  | text : String → Body
  | json : Json → Body

/-- HTTP response: numeric status code plus body. -/
structure Resp where
  status : Nat
  body : Body

/-- Outcome of handling one request: an HTTP response, or a handler panic
(Rust expect / unwrap), which aborts request handling without producing a
response. -/
inductive Outcome where
  | response : Resp → Outcome
  | panic : String → Outcome

/-- Status code of an outcome; a panic has none. -/
def outcomeStatus : Outcome → Option Nat
  | Outcome.response r => some r.status
  | Outcome.panic _ => none

/-- Body of an outcome; a panic has none. -/
def outcomeBody : Outcome → Option Body
  | Outcome.response r => some r.body
  | Outcome.panic _ => none

/-- View of an author row produced by SELECT name, nationality FROM authors
(src/routes/authors.rs line 14): only the two payload columns. -/
def authorView (r : AuthorRow) : Author :=
  { name := r.name, nationality := r.nationality }

/-- Serde serialization of an Author value: a JSON object with exactly the
fields name and nationality, in declaration order. -/
def authorToJson (a : Author) : Json :=
  Json.obj [("name", Json.str a.name), ("nationality", Json.str a.nationality)]

/-- GET /authors handler, src/routes/authors.rs lines 13-20: fetch all
author rows (name and nationality only) and reply 200 with the JSON array;
a store failure hits the expect call and panics. -/
def authors_index (st : Store) : Outcome :=
  if st.failing then
    Outcome.panic "Failed to fetch saved authors."
  else
    Outcome.response
      { status := 200
        body := Body.json (Json.arr (st.authors.map (fun r => authorToJson (authorView r)))) }

/-- POST /authors/create endpoint, src/routes/authors.rs lines 22-40,
including the web::Json extractor: a body that fails to deserialize as
Author is rejected with 400 before the handler runs and the store is
untouched; otherwise the handler inserts (name, nationality, created_at)
— the id is generated by the store, passed here as newId — and replies
200 with a plain-text confirmation, or 500 if the insert fails. -/
def create_author (body : Option Json) (newId now : Nat) (st : Store) : Outcome × Store :=
  match authorFromBody body with
  | none => (Outcome.response { status := 400, body := Body.empty }, st)
  | some a =>
    if st.failing then
      (Outcome.response { status := 500, body := Body.empty }, st)
    else
      (Outcome.response { status := 200, body := Body.text "Author created successfully!\n" },
       { st with authors := st.authors ++ [{ id := newId, name := a.name,
                                             nationality := a.nationality, createdAt := now }] })

/-- POST /authors/delete endpoint, src/routes/authors.rs lines 47-63,
including the web::Json extractor for AuthorId: the id string is parsed
with Uuid::parse_str and unwrap_or_default substitutes the nil UUID on
parse failure; the handler then deletes every row whose id equals the
resulting value and replies 200 with the (copy-pasted) plain-text
confirmation, or 500 if the statement fails. -/
def delete_author (body : Option Json) (st : Store) : Outcome × Store :=
  match authorIdFromBody body with
  | none => (Outcome.response { status := 400, body := Body.empty }, st)
  | some idStr =>
    let target := (parseUuid idStr).getD nilUuid
    if st.failing then
      (Outcome.response { status := 500, body := Body.empty }, st)
    else
      (Outcome.response { status := 200, body := Body.text "Author created successfully!\n" },
       { st with authors := st.authors.filter (fun r => r.id ≠ target) })

/-- The user-create payload: name and email, both required strings, as in
the users test scenarios and the spec data model for User. -/
structure UserPayload where
  name : String
  email : String
deriving DecidableEq, Repr

/-- Deserialization of the user-create payload from JSON, serde style:
both fields present as strings, unknown fields ignored. -/
def userFromJson : Json → Option UserPayload
  | Json.obj fields =>
    match jsonLookup fields "name", jsonLookup fields "email" with
    | some (Json.str n), some (Json.str e) => some { name := n, email := e }
    | _, _ => none
  | _ => none

/-- Body-level extraction for the user-create payload. -/
def userFromBody (b : Option Json) : Option UserPayload :=
  b.bind userFromJson

/-- One row of the users table (users(id, name, email, created_at)). -/
structure UserRow where
  id : Nat
  name : String
  email : String
  createdAt : Nat
deriving DecidableEq, Repr

/-- The users store state: rows of the users table plus the failure flag. -/
structure UserStore where
  users : List UserRow
  failing : Bool
deriving DecidableEq, Repr

/-- Modelled from the spec: syntactic validity of an email address, required
by the create_user handler whose source file (src/routes/users.rs) is not
under src/. The spec only says the email must be a syntactically valid
email address; it is modelled as a single at-sign separating a nonempty
local part from a nonempty domain part. -/
def validEmail (s : String) : Bool :=
  match splitCharsOn (Char.ofNat 64) s.data [] with
  | [lp, dp] => lp.length > 0 && dp.length > 0
  | _ => false

/-- Modelled from the spec: the POST /users/create endpoint. The handler
source (src/routes/users.rs) is not under src/; per the spec, name and
email are required, the email must be syntactically valid, missing or
malformed fields fail with a client error before any store write and no
row is created, and on success a row is inserted with a server-generated
id and creation timestamp and a success response is returned. -/
def create_user (body : Option Json) (newId now : Nat) (st : UserStore) : Outcome × UserStore :=
  match userFromBody body with
  | none => (Outcome.response { status := 400, body := Body.empty }, st)
  | some u =>
    if validEmail u.email = false then
      (Outcome.response { status := 400, body := Body.empty }, st)
    else if st.failing then
      (Outcome.response { status := 500, body := Body.empty }, st)
    else
      (Outcome.response { status := 200, body := Body.empty },
       { st with users := st.users ++ [{ id := newId, name := u.name,
                                         email := u.email, createdAt := now }] })

/-- HTTP methods used by the route table of src/startup.rs. -/
inductive Method where
  | get : Method
  | post : Method
deriving DecidableEq, Repr

/-- The handlers named in the route table of src/startup.rs lines 9-23. -/
inductive Handler where
  | health_check : Handler
  | books_index : Handler
  | show_book : Handler
  | create_book : Handler
  | delete_book : Handler
  | authors_index : Handler
  | show_author : Handler
  | create_author : Handler
  | delete_author : Handler
  | create_user : Handler
  | seed_authors : Handler
deriving DecidableEq, Repr

/-- The route table built in run (src/startup.rs lines 10-21), in
registration order. -/
def routeTable : List (Method × String × Handler) :=
  [ (Method.get,  "/health_check", Handler.health_check),
    (Method.get,  "/books", Handler.books_index),
    (Method.get,  "/books/{book_id}", Handler.show_book),
    (Method.post, "/books/create", Handler.create_book),
    (Method.post, "/books/delete", Handler.delete_book),
    (Method.get,  "/authors", Handler.authors_index),
    (Method.get,  "/authors/{author_id}", Handler.show_author),
    (Method.post, "/authors/create", Handler.create_author),
    (Method.post, "/authors/delete", Handler.delete_author),
    (Method.post, "/users/create", Handler.create_user),
    (Method.get,  "/seed_authors", Handler.seed_authors) ]

/-- A pattern segment of the form ...enclosed in braces... is a dynamic
path parameter that matches any segment; otherwise the segment must match
literally (actix-web static/param route matching). -/
def segMatches (pat seg : List Char) : Bool :=
  (decide (pat.head? = some (Char.ofNat 123)) &&
   decide (pat.getLastD (Char.ofNat 32) = Char.ofNat 125) &&
   decide (pat.length ≥ 2)) ||
  pat == seg

/-- Path matching: split pattern and path into slash-separated segments and
match them pointwise. -/
def pathMatches (pattern path : String) : Bool :=
  let ps := splitCharsOn (Char.ofNat 47) pattern.data []
  let qs := splitCharsOn (Char.ofNat 47) path.data []
  ps.length == qs.length && (List.zip ps qs).all (fun pq => segMatches pq.1 pq.2)

/-- Request dispatch: the first route of the table whose method and path
pattern match the request wins; no match is a not-found response. -/
def dispatch (m : Method) (path : String) : Option Handler :=
  (routeTable.find? (fun r => decide (r.1 = m) && pathMatches r.2.1 path)).map
    (fun r => r.2.2)

/-- Lookup of a string field in a JSON response body, as the tests do with
response.json followed by indexing: a body that is not JSON yields
nothing. -/
def bodyStrField (b : Body) (key : String) : Option String :=
  match b with
  | Body.json (Json.obj fields) =>
    match jsonLookup fields key with
    | some (Json.str s) => some s
    | _ => none
  | _ => none

/-- Field names of a JSON object, in order. -/
def objKeys : Json → Option (List String)
  | Json.obj fields => some (fields.map (fun kv => kv.1))
  | _ => none

/-- Filtering a list twice with the same predicate equals filtering once. -/
theorem filterTwice {α : Type} (p : α → Bool) (l : List α) :
    (l.filter p).filter p = l.filter p := by
  induction l with
  | nil => rfl
  | cons a l ih =>
    by_cases h : p a = true
    · simp [List.filter_cons, h, ih]
    · simp [List.filter_cons, h, ih]

/-- The two elements appended at the end of a list sit at positions
length and length + 1. -/
theorem appendPairGet {α : Type} (l : List α) (e1 e2 : α) :
    (l ++ [e1, e2])[l.length]? = some e1 ∧ (l ++ [e1, e2])[l.length + 1]? = some e2 := by
  induction l with
  | nil => exact ⟨rfl, rfl⟩
  | cons a l ih => simpa using ih

/-- C1: the claim states that an authors/delete request whose id string does
not parse as a valid identifier is rejected as a validation error and no row
with the default (nil) identifier is deleted. The code instead substitutes
the nil UUID via unwrap_or_default and runs the delete: on a store holding a
row whose id is the nil UUID, the request with id not-a-uuid returns 200 and
deletes that row, keeping the unrelated row. -/
theorem c1_invalid_id_deletes_nil_row :
    delete_author (some (Json.obj [("id", Json.str "not-a-uuid")]))
        { authors := [{ id := 1, name := "Keep", nationality := "K", createdAt := 0 },
                      { id := nilUuid, name := "Victim", nationality := "V", createdAt := 0 }],
          failing := false } =
      (Outcome.response { status := 200, body := Body.text "Author created successfully!\n" },
       { authors := [{ id := 1, name := "Keep", nationality := "K", createdAt := 0 }],
         failing := false }) := by
  rfl

/-- C2: the claim requires the identifier returned from the create response
to drive a show-by-id round trip. The create response of the code is the
fixed plain-text confirmation: it carries no JSON body at all, so no
author_id field can be extracted from it (the repository tests show_author
and author_deletion try exactly that), and the round trip cannot even be
started. Evaluated at the creation of JRR Tolkien on an empty store. -/
theorem c2_create_response_carries_no_id :
    create_author (some (Json.obj [("name", Json.str "JRR Tolkien"),
                                   ("nationality", Json.str "British")])) 7 3
        { authors := [], failing := false } =
      (Outcome.response { status := 200, body := Body.text "Author created successfully!\n" },
       { authors := [{ id := 7, name := "JRR Tolkien", nationality := "British",
                       createdAt := 3 }], failing := false }) ∧
    ((outcomeBody (create_author (some (Json.obj [("name", Json.str "JRR Tolkien"),
                                                  ("nationality", Json.str "British")])) 7 3
        { authors := [], failing := false }).1).bind
      (fun b => bodyStrField b "author_id")) = none :=
  ⟨rfl, rfl⟩

/-- C3: an authors/create request whose body is missing a required field or
is malformed (that is, fails Author deserialization) is answered with a 400
client error and the store is returned unchanged: the rejection happens
before any write. -/
theorem c3_invalid_create_rejected_before_write
    (body : Option Json) (newId now : Nat) (st : Store)
    (h : authorFromBody body = none) :
    create_author body newId now st =
      (Outcome.response { status := 400, body := Body.empty }, st) := by
  simp [create_author, h]

/-- Witness for C3 at the incomplete body of the repository test: name
present, nationality missing. -/
theorem c3_witness :
    authorFromBody (some (Json.obj [("name", Json.str "JRR Tolkien")])) = none ∧
    create_author (some (Json.obj [("name", Json.str "JRR Tolkien")])) 7 3
        { authors := [], failing := false } =
      (Outcome.response { status := 400, body := Body.empty },
       { authors := [], failing := false }) :=
  ⟨rfl, c3_invalid_create_rejected_before_write _ 7 3 _ rfl⟩

/-- C4: a users/create request whose email field is not syntactically valid
is answered with a 400 client error and the users table is returned
unchanged (spec-modelled handler: src/routes/users.rs is not under src/). -/
theorem c4_invalid_email_rejected
    (body : Option Json) (u : UserPayload) (newId now : Nat) (st : UserStore)
    (hu : userFromBody body = some u) (he : validEmail u.email = false) :
    create_user body newId now st =
      (Outcome.response { status := 400, body := Body.empty }, st) := by
  simp [create_user, hu, he]

/-- Witness for C4 at the invalid-email scenario of the spec: name renato,
email not-an-email, against an empty users table. -/
theorem c4_witness :
    userFromBody (some (Json.obj [("name", Json.str "renato"),
                                  ("email", Json.str "not-an-email")])) =
      some { name := "renato", email := "not-an-email" } ∧
    validEmail "not-an-email" = false ∧
    create_user (some (Json.obj [("name", Json.str "renato"),
                                 ("email", Json.str "not-an-email")])) 7 3
        { users := [], failing := false } =
      (Outcome.response { status := 400, body := Body.empty },
       { users := [], failing := false }) :=
  ⟨rfl, rfl, c4_invalid_email_rejected _ _ 7 3 _ rfl rfl⟩

/-- C5 counterexample: the claim states that a store failure during
GET /authors yields a 500 response. On a failing store the handler instead
hits the expect call and panics, producing no response at all, so the
outcome has no status code, in particular not 500. -/
theorem c5_counterexample :
    authors_index { authors := [], failing := true } =
      Outcome.panic "Failed to fetch saved authors." ∧
    outcomeStatus (authors_index { authors := [], failing := true }) ≠ some 500 :=
  ⟨rfl, by decide⟩

/-- C5 amended: if the store is failing, GET /authors fails fatally for
that request by panicking with the expect message, producing no partial
results and no HTTP response (in particular no 500 response); the handler
never returns a response on a failing store. -/
theorem c5_store_failure_panics (st : Store) (h : st.failing = true) :
    authors_index st = Outcome.panic "Failed to fetch saved authors." := by
  simp [authors_index, h]

/-- Witness for C5 amended at a concrete failing store. -/
theorem c5_witness :
    authors_index { authors := [], failing := true } =
      Outcome.panic "Failed to fetch saved authors." :=
  c5_store_failure_panics { authors := [], failing := true } rfl

/-- C6: creating author E1 and then E2 on a healthy store and listing
yields the previous listing followed by E1 and then E2: the listing is in
insertion order and E1 sits strictly before E2 (at positions length and
length + 1 of the array). -/
theorem c6_listing_preserves_insertion_order
    (st : Store) (b1 b2 : Option Json) (a1 a2 : Author) (i1 t1 i2 t2 : Nat)
    (h1 : authorFromBody b1 = some a1) (h2 : authorFromBody b2 = some a2)
    (hf : st.failing = false) :
    ∃ l : List Json,
      authors_index (create_author b2 i2 t2 (create_author b1 i1 t1 st).2).2 =
        Outcome.response { status := 200, body := Body.json (Json.arr l) } ∧
      l = (st.authors.map (fun r => authorToJson (authorView r))) ++
            [authorToJson a1, authorToJson a2] ∧
      l[st.authors.length]? = some (authorToJson a1) ∧
      l[st.authors.length + 1]? = some (authorToJson a2) := by
  obtain ⟨n1, nat1⟩ := a1
  obtain ⟨n2, nat2⟩ := a2
  refine ⟨(st.authors.map (fun r => authorToJson (authorView r))) ++
            [authorToJson ⟨n1, nat1⟩, authorToJson ⟨n2, nat2⟩], ?_, rfl, ?_, ?_⟩
  · simp [create_author, h1, h2, hf, authors_index, authorView, authorToJson]
  · have h := (appendPairGet (st.authors.map (fun r => authorToJson (authorView r)))
      (authorToJson ⟨n1, nat1⟩) (authorToJson ⟨n2, nat2⟩)).1
    simpa [List.length_map] using h
  · have h := (appendPairGet (st.authors.map (fun r => authorToJson (authorView r)))
      (authorToJson ⟨n1, nat1⟩) (authorToJson ⟨n2, nat2⟩)).2
    simpa [List.length_map] using h

/-- Witness for C6 at the repository test scenario: JRR Tolkien then Herman
Melville created on an empty healthy store. -/
theorem c6_witness :
    authorFromBody (some (Json.obj [("name", Json.str "JRR Tolkien"),
                                    ("nationality", Json.str "British")])) =
      some { name := "JRR Tolkien", nationality := "British" } ∧
    authorFromBody (some (Json.obj [("name", Json.str "Herman Melville"),
                                    ("nationality", Json.str "American")])) =
      some { name := "Herman Melville", nationality := "American" } ∧
    ∃ l : List Json,
      authors_index (create_author
          (some (Json.obj [("name", Json.str "Herman Melville"),
                           ("nationality", Json.str "American")])) 2 2
        (create_author
          (some (Json.obj [("name", Json.str "JRR Tolkien"),
                           ("nationality", Json.str "British")])) 1 1
          { authors := [], failing := false }).2).2 =
        Outcome.response { status := 200, body := Body.json (Json.arr l) } ∧
      l = (([] : List AuthorRow).map (fun r => authorToJson (authorView r))) ++
            [authorToJson { name := "JRR Tolkien", nationality := "British" },
             authorToJson { name := "Herman Melville", nationality := "American" }] ∧
      l[([] : List AuthorRow).length]? =
        some (authorToJson { name := "JRR Tolkien", nationality := "British" }) ∧
      l[([] : List AuthorRow).length + 1]? =
        some (authorToJson { name := "Herman Melville", nationality := "American" }) :=
  ⟨rfl, rfl,
   c6_listing_preserves_insertion_order { authors := [], failing := false } _ _ _ _ 1 1 2 2
     rfl rfl rfl⟩

/-- C7: on any healthy store, GET /authors replies 200 with a JSON array
each of whose elements is an object with exactly the fields name and
nationality, in that order: id and creation timestamp are omitted from the
list view. -/
theorem c7_index_elements_have_exactly_name_nationality
    (st : Store) (hf : st.failing = false) :
    ∃ l : List Json,
      authors_index st =
        Outcome.response { status := 200, body := Body.json (Json.arr l) } ∧
      ∀ j ∈ l, objKeys j = some ["name", "nationality"] := by
  refine ⟨st.authors.map (fun r => authorToJson (authorView r)),
    by simp [authors_index, hf], ?_⟩
  intro j hj
  simp only [List.mem_map] at hj
  obtain ⟨r, _, rfl⟩ := hj
  rfl

/-- Witness for C7 at a one-row healthy store. -/
theorem c7_witness :
    (({ authors := [{ id := 5, name := "JRR Tolkien", nationality := "British",
                      createdAt := 0 }], failing := false } : Store).failing = false) ∧
    ∃ l : List Json,
      authors_index { authors := [{ id := 5, name := "JRR Tolkien",
                                    nationality := "British", createdAt := 0 }],
                      failing := false } =
        Outcome.response { status := 200, body := Body.json (Json.arr l) } ∧
      ∀ j ∈ l, objKeys j = some ["name", "nationality"] :=
  ⟨rfl, c7_index_elements_have_exactly_name_nationality _ rfl⟩

/-- C8: deleting a valid identifier twice in succession on a healthy store
succeeds both times with a 200 response, and the second delete leaves the
store exactly as the first left it: delete is idempotent on the store
state. -/
theorem c8_delete_idempotent
    (body : Option Json) (idStr : String) (st : Store)
    (hid : authorIdFromBody body = some idStr)
    (_hvalid : (parseUuid idStr).isSome = true)
    (hf : st.failing = false) :
    outcomeStatus (delete_author body st).1 = some 200 ∧
    outcomeStatus (delete_author body (delete_author body st).2).1 = some 200 ∧
    (delete_author body (delete_author body st).2).2 = (delete_author body st).2 := by
  refine ⟨by simp [delete_author, hid, hf, outcomeStatus], ?_, ?_⟩
  · simp [delete_author, hid, hf, outcomeStatus]
  · simp [delete_author, hid, hf, filterTwice]

/-- Witness for C8: deleting the nil UUID, written out in full valid
hyphenated form, twice on a healthy one-row store. -/
theorem c8_witness :
    authorIdFromBody (some (Json.obj
        [("id", Json.str "00000000-0000-0000-0000-000000000000")])) =
      some "00000000-0000-0000-0000-000000000000" ∧
    (parseUuid "00000000-0000-0000-0000-000000000000").isSome = true ∧
    (({ authors := [{ id := 0, name := "JRR Tolkien", nationality := "British",
                      createdAt := 0 }], failing := false } : Store).failing = false) ∧
    (outcomeStatus (delete_author (some (Json.obj
        [("id", Json.str "00000000-0000-0000-0000-000000000000")]))
        { authors := [{ id := 0, name := "JRR Tolkien", nationality := "British",
                        createdAt := 0 }], failing := false }).1 = some 200 ∧
     outcomeStatus (delete_author (some (Json.obj
        [("id", Json.str "00000000-0000-0000-0000-000000000000")]))
        (delete_author (some (Json.obj
          [("id", Json.str "00000000-0000-0000-0000-000000000000")]))
          { authors := [{ id := 0, name := "JRR Tolkien", nationality := "British",
                          createdAt := 0 }], failing := false }).2).1 = some 200 ∧
     (delete_author (some (Json.obj
        [("id", Json.str "00000000-0000-0000-0000-000000000000")]))
        (delete_author (some (Json.obj
          [("id", Json.str "00000000-0000-0000-0000-000000000000")]))
          { authors := [{ id := 0, name := "JRR Tolkien", nationality := "British",
                          createdAt := 0 }], failing := false }).2).2 =
       (delete_author (some (Json.obj
          [("id", Json.str "00000000-0000-0000-0000-000000000000")]))
          { authors := [{ id := 0, name := "JRR Tolkien", nationality := "British",
                          createdAt := 0 }], failing := false }).2) :=
  ⟨rfl, rfl, rfl, c8_delete_idempotent _ _ _ rfl rfl rfl⟩

/-- C9: every successful author deletion replies with the plain-text body
Author created successfully followed by an exclamation mark and newline —
byte for byte the same body a successful creation replies with — so the
delete confirmation announces a creation. -/
theorem c9_delete_body_equals_create_body
    (bd bc : Option Json) (idStr : String) (a : Author) (st st2 : Store) (i t : Nat)
    (hid : authorIdFromBody bd = some idStr) (hf : st.failing = false)
    (hc : authorFromBody bc = some a) (hf2 : st2.failing = false) :
    (delete_author bd st).1 =
      Outcome.response { status := 200, body := Body.text "Author created successfully!\n" } ∧
    outcomeBody (delete_author bd st).1 = outcomeBody (create_author bc i t st2).1 := by
  constructor
  · simp [delete_author, hid, hf]
  · simp [delete_author, create_author, hid, hc, hf, hf2, outcomeBody]

/-- Witness for C9: a concrete delete of the nil UUID and a concrete create
of JRR Tolkien, both on healthy empty stores. -/
theorem c9_witness :
    authorIdFromBody (some (Json.obj
        [("id", Json.str "00000000-0000-0000-0000-000000000000")])) =
      some "00000000-0000-0000-0000-000000000000" ∧
    (({ authors := [], failing := false } : Store).failing = false) ∧
    authorFromBody (some (Json.obj [("name", Json.str "JRR Tolkien"),
                                    ("nationality", Json.str "British")])) =
      some { name := "JRR Tolkien", nationality := "British" } ∧
    ((delete_author (some (Json.obj
        [("id", Json.str "00000000-0000-0000-0000-000000000000")]))
        { authors := [], failing := false }).1 =
      Outcome.response { status := 200, body := Body.text "Author created successfully!\n" } ∧
     outcomeBody (delete_author (some (Json.obj
        [("id", Json.str "00000000-0000-0000-0000-000000000000")]))
        { authors := [], failing := false }).1 =
      outcomeBody (create_author (some (Json.obj [("name", Json.str "JRR Tolkien"),
                                                  ("nationality", Json.str "British")])) 7 3
        { authors := [], failing := false }).1) :=
  ⟨rfl, rfl, rfl,
   c9_delete_body_equals_create_body _ _ _ _ _ _ 7 3 rfl rfl rfl rfl⟩

/-- C10: the route table of src/startup.rs has eleven entries — one beyond
the ten of the external-interface table — and a GET request for
/seed_authors is dispatched to the seed_authors handler rather than falling
through to not-found. -/
theorem c10_seed_authors_route_exists :
    dispatch Method.get "/seed_authors" = some Handler.seed_authors ∧
    routeTable.length = 11 :=
  ⟨rfl, rfl⟩

end Bookstore
